import Mathlib

/-
Verification of the workspace-orchestration layer of the data-quality-platform
client (src/frontend/src/App.jsx).  Each definition below is a shallow
embedding of a function or state fragment of that file; theorems settle the
spec claims about them.
-/

/-- A dataset as listed by the service (the fields the client reads). -/
structure Dataset where
  id : Nat
  name : String
  version : Nat
  total_rows : Nat
  total_columns : Nat
deriving DecidableEq, Repr

/-- The structured diagnostic object carried in an upload error body under
the `detail` key: fields `error`, `reason`, `explanation`, `found_issues`,
`how_to_fix`.  Optional fields are `Option`; `found_issues` defaults empty. -/
structure ErrorDetail where
  error : Option String
  reason : Option String
  explanation : Option String
  found_issues : List String
  how_to_fix : Option String
deriving DecidableEq, Repr

/-- The JSON body of an upload-endpoint response, as the client discriminates
it: a parsed Dataset on success, `detail` present and an object,
`detail` present but not an object, or JSON without a usable `detail`. -/
inductive UploadBody where
  | dataset (ds : Dataset)
  | objDetail (d : ErrorDetail)
  | strDetail (s : String)
  | noDetail
deriving DecidableEq, Repr

/-- An HTTP response as seen through fetch: `ok`, `status`, `statusText`, and
the result of `r.json()` (`none` when the body is not parseable JSON). -/
structure HttpResponse where
  ok : Bool
  status : Nat
  statusText : String
  body : Option UploadBody
deriving DecidableEq, Repr

/-- The message `api` throws for a non-ok response: `status statusText`. -/
def genericMessage (r : HttpResponse) : String :=
  toString r.status ++ " " ++ r.statusText

/-- Embedding of the gateway function `api` (App.jsx lines 25-30): on a
non-ok response it throws `Error(status statusText)` without reading the
body; on an ok response it returns `r.json()` (which can itself fail). -/
def api (r : HttpResponse) : Except String UploadBody :=
  if r.ok = false then Except.error (genericMessage r)
  else
    match r.body with
    | some b => Except.ok b
    | none => Except.error "invalid json"

/-- What the spec claims the gateway attempts: decoding the body as a
structured error object.  (Used only to state claim C2 against `api`.) -/
def decodeStructured : Option UploadBody → Option ErrorDetail
  | some (UploadBody.objDetail d) => some d
  | _ => none

/-- JavaScript `a || b` for an optional string `a` (absent and empty are
falsy). -/
def jsStringOr (o : Option String) (dflt : String) : String :=
  match o with
  | some s => if s = "" then dflt else s
  | none => dflt

/-- `file.name.endsWith(".csv")`, computed over the character list. -/
def endsWithCsv (name : String) : Bool :=
  List.isSuffixOf ".csv".data name.data

/-- The `msg` state of UploadZone: success flag, text line, and the optional
structured `details` object preserved from the error body. -/
structure UploadMsg where
  ok : Bool
  text : String
  details : Option ErrorDetail
deriving DecidableEq, Repr

/-- Observable outcome of one `upload(file)` call of UploadZone: how many
POST requests to the upload endpoint were issued, the final `msg`, and the
body handed to the `onUploaded` callback (success only). -/
structure UploadOutcome where
  posts : Nat
  msg : Option UploadMsg
  uploaded : Option UploadBody
deriving DecidableEq, Repr

/-- `ds.name` as the success message reads it (non-dataset JSON renders as
`undefined`, mirroring property access on an unexpected object). -/
def bodyName : UploadBody → String
  | UploadBody.dataset ds => ds.name
  | _ => "undefined"

/-- `ds.total_rows` as the success message reads it. -/
def bodyRows : UploadBody → String
  | UploadBody.dataset ds => toString ds.total_rows
  | _ => "undefined"

/-- Embedding of `UploadZone.upload` (App.jsx lines 144-177).  The server is
modelled as the fixed response `resp` of the upload endpoint: the initial
`api` POST and the follow-up fetch in the catch block receive the same
response.  Control flow mirrors the source: a non-`.csv` name is rejected
locally with no request; on `api` success the success message is set and
`onUploaded` runs; on `api` failure the catch block re-fetches the endpoint
and inspects `errData.detail` (object: keep it in `msg.details`; otherwise
fall back to plain messages; a second json failure yields the inner catch). -/
def upload (file : String) (resp : HttpResponse) : UploadOutcome :=
  if endsWithCsv file = false then
    { posts := 0
      msg := some { ok := false, text := "Only CSV files are supported.", details := none }
      uploaded := none }
  else
    match api resp with
    | Except.ok b =>
        { posts := 1
          msg := some { ok := true
                        text := "✓ \"" ++ bodyName b ++ "\" uploaded — " ++ bodyRows b ++ " rows"
                        details := none }
          uploaded := some b }
    | Except.error e =>
        match resp.body with
        | some (UploadBody.objDetail d) =>
            { posts := 2
              msg := some { ok := false, text := jsStringOr d.error "Upload failed", details := some d }
              uploaded := none }
        | some _ =>
            { posts := 2
              msg := some { ok := false, text := e, details := none }
              uploaded := none }
        | none =>
            { posts := 2
              msg := some { ok := false, text := "Upload failed: " ++ e, details := none }
              uploaded := none }

/-- The structured details surfaced by an upload outcome. -/
def surfacedDetails (o : UploadOutcome) : Option ErrorDetail :=
  o.msg.bind UploadMsg.details

/-- A 422 response whose body is `detail: d` (a structured error object). -/
def structured422 (d : ErrorDetail) : HttpResponse :=
  { ok := false, status := 422, statusText := "Unprocessable Entity"
    body := some (UploadBody.objDetail d) }

/-- `/datasets/id/new-version`. -/
def newVersionPath (id : Nat) : String :=
  "/datasets/" ++ toString id ++ "/new-version"

/-- Observable outcome of `VersionsPanel.uploadNewVersion`: the POSTed
request paths, the alert strings shown, and whether `loadVersions()` ran.
These are all of that function's effects; it never touches the root
dataset selection. -/
structure NewVersionOutcome where
  posts : List String
  alerts : List String
  reloadedVersions : Bool
deriving DecidableEq, Repr

/-- Embedding of `VersionsPanel.uploadNewVersion` (App.jsx lines 1028-1045):
local `.csv`-name check with an alert and no request; otherwise one POST to
`/datasets/id/new-version`; on success reload the version list and alert
success; on failure alert the single string `Upload failed: message`. -/
def uploadNewVersion (id : Nat) (file : String) (resp : HttpResponse) : NewVersionOutcome :=
  if endsWithCsv file = false then
    { posts := [], alerts := ["Only CSV files allowed"], reloadedVersions := false }
  else
    match api resp with
    | Except.ok _ =>
        { posts := [newVersionPath id]
          alerts := ["✓ New version uploaded!"]
          reloadedVersions := true }
    | Except.error e =>
        { posts := [newVersionPath id]
          alerts := ["Upload failed: " ++ e]
          reloadedVersions := false }

/-- Whether the string `a` shows `t`, i.e. contains it as a substring
(computed over character lists). -/
def textShows (a t : String) : Bool :=
  a.data.tails.any (fun suf => List.isPrefixOf t.data suf)

/-- Whether any of the surfaced strings shows `t`. -/
def surfacesText (outs : List String) (t : String) : Bool :=
  outs.any (fun a => textShows a t)

/-- A concrete structured error detail (the spec's upload example, fields
individually populated). -/
def exDetail : ErrorDetail :=
  { error := some "bad header"
    reason := some "missing id column"
    explanation := none
    found_issues := ["no id column found"]
    how_to_fix := some "add an id column" }

/-- A concrete plain failure response (no parseable body). -/
def respFail : HttpResponse :=
  { ok := false, status := 500, statusText := "Internal Server Error", body := none }

/-- The pair of version-checkbox selections of VersionsPanel:
`selectedV1` and `selectedV2`, each an id or null. -/
structure SelPair where
  v1 : Option Nat
  v2 : Option Nat
deriving DecidableEq, Repr

/-- The checkbox for `id` is rendered checked:
`selectedV1 === v.id || selectedV2 === v.id`. -/
abbrev Selected (s : SelPair) (id : Nat) : Prop :=
  s.v1 = some id ∨ s.v2 = some id

/-- JavaScript truthiness of a selection slot holding `null` or a raw id:
`null` and the id `0` are falsy, every other id is truthy.  The source
tests slots this way (`!selectedV1`, `!selectedV2`,
`selectedV1 && selectedV2`), never comparing against `null`. -/
def jsTruthy : Option Nat → Bool
  | none => false
  | some n => n != 0

/-- The checkbox `disabled` attribute (App.jsx line 1119):
`selectedV1 && selectedV2 && selectedV1 !== v.id && selectedV2 !== v.id`. -/
def disabledJs (s : SelPair) (id : Nat) : Bool :=
  jsTruthy s.v1 && jsTruthy s.v2 && s.v1 != some id && s.v2 != some id

/-- Embedding of a click on the version checkbox for `id` (App.jsx lines
1107-1121).  A disabled checkbox fires no change event.  Otherwise the
click flips the rendered checked state: when checking, `if (!selectedV1)`
fills slot 1, `else if (!selectedV2)` fills slot 2, else nothing — these
tests are JavaScript truthiness, so a slot holding the falsy id 0 counts
as free and is overwritten; when unchecking, every slot strictly equal to
the id is cleared. -/
def toggle (s : SelPair) (id : Nat) : SelPair :=
  if disabledJs s id = true then
    s
  else if Selected s id then
    { v1 := if s.v1 = some id then none else s.v1
      v2 := if s.v2 = some id then none else s.v2 }
  else if jsTruthy s.v1 = false then
    { v1 := some id, v2 := s.v2 }
  else if jsTruthy s.v2 = false then
    { v1 := s.v1, v2 := some id }
  else
    s

/-- Number of selected version ids. -/
def selCount (s : SelPair) : Nat :=
  (if s.v1.isSome then 1 else 0) + (if s.v2.isSome then 1 else 0)

/-- The Compare button is rendered (and comparison reachable) exactly when
`selectedV1 && selectedV2` (App.jsx lines 1142-1148) — JavaScript
truthiness again, so a selected id 0 keeps the button hidden. -/
def canCompare (s : SelPair) : Bool :=
  jsTruthy s.v1 && jsTruthy s.v2

/-- Initial selection state: both slots null. -/
def initPair : SelPair :=
  { v1 := none, v2 := none }

/-- The state reached from the initial state by a sequence of checkbox
clicks. -/
def reach (tr : List Nat) : SelPair :=
  tr.foldl toggle initPair

/-- The two slots never hold the same id (when both are filled). -/
def goodPair (s : SelPair) : Prop :=
  s.v1 = none ∨ s.v2 = none ∨ s.v1 ≠ s.v2

/-- Neither slot holds the falsy id 0. -/
def cleanPair (s : SelPair) : Prop :=
  s.v1 ≠ some 0 ∧ s.v2 ≠ some 0

/-- Payload of a profile response (content irrelevant to the claims). -/
structure ProfileData where
  quality_score : Nat
deriving DecidableEq, Repr

/-- Events seen by ProfilePanel: the `dataset.id` prop changes (the
`useEffect` with dependency `[dataset.id]` runs), or a profile request
issued for some dataset id resolves. -/
inductive PanelEvent where
  | selectDataset (id : Nat)
  | profileResponse (id : Nat) (p : ProfileData)
deriving DecidableEq, Repr

/-- State of ProfilePanel: which dataset the panel is bound to, the `data`
state (tagged, model-side, with the id the response was fetched for), and
the ids with an unresolved profile request in flight. -/
structure PanelState where
  selectedId : Option Nat
  data : Option (Nat × ProfileData)
  pending : List Nat
deriving DecidableEq, Repr

/-- Embedding of ProfilePanel's effect and response handling (App.jsx lines
358-378).  On a dataset change the effect runs `setData(null)` and issues
`api(/datasets/id/profile).then(setData)`.  A resolving response (admissible
only if its request is pending) runs `setData` unconditionally: the source
attaches no identity tag and performs no check, so the value is stored
whatever dataset is now selected. -/
def panelStep (s : PanelState) (e : PanelEvent) : PanelState :=
  match e with
  | PanelEvent.selectDataset id =>
      { selectedId := some id, data := none, pending := id :: s.pending }
  | PanelEvent.profileResponse id p =>
      if id ∈ s.pending then
        { s with data := some (id, p), pending := s.pending.erase id }
      else s

/-- Run ProfilePanel from its mount state through a sequence of events. -/
def panelRun (es : List PanelEvent) : PanelState :=
  es.foldl panelStep { selectedId := none, data := none, pending := [] }

/-- Validation result data: one violation sample row. -/
structure ViolationDetail where
  row_index : Nat
  column_value : String
  row_data : List (String × String)
deriving DecidableEq, Repr

/-- One rule's result inside a ValidationResult. -/
structure RuleResult where
  rule_id : Nat
  column : String
  rule_type : String
  status : String
  message : String
  violations : Nat
  violation_details : List ViolationDetail
deriving DecidableEq, Repr

/-- A ValidationResult as returned by `/datasets/id/validate`. -/
structure ValidationResult where
  overall_status : String
  passed : Nat
  failed : Nat
  results : List RuleResult
deriving DecidableEq, Repr

/-- The aggregate line RulesPanel renders (App.jsx line 893):
`passed passed, failed failed`. -/
def summaryCounts (vr : ValidationResult) : String :=
  toString vr.passed ++ " passed, " ++ toString vr.failed ++ " failed"

/-- The violations heading (App.jsx line 961): true total and sample size
in distinct positions. -/
def violationHeading (r : RuleResult) : String :=
  "Violations (" ++ toString r.violations ++ " total, showing first "
    ++ toString r.violation_details.length ++ "):"

/-- One rendered violation sample entry (App.jsx lines 970-991). -/
def renderViolationEntry (v : ViolationDetail) : String :=
  "Row " ++ toString v.row_index ++ ": " ++ v.column_value

/-- The violations block of one rule result: rendered only when
`violation_details` is non-empty (App.jsx line 952), with the heading and
one entry per sample item. -/
def renderViolationBlock (r : RuleResult) : Option (String × List String) :=
  if r.violation_details.length > 0 then
    some (violationHeading r, r.violation_details.map renderViolationEntry)
  else none

/-- The client-side state of App: the dataset list and the selection. -/
structure AppState where
  datasets : List Dataset
  selected : Option Dataset
deriving DecidableEq, Repr

/-- Embedding of `App.handleDelete` (App.jsx lines 1348-1353): filter the
deleted id out of the list; clear the selection when it was the deleted
dataset (`selected?.id === deletedId`), otherwise leave it. -/
def appHandleDelete (s : AppState) (deletedId : Nat) : AppState :=
  { datasets := s.datasets.filter (fun ds => ds.id != deletedId)
    selected :=
      match s.selected with
      | some d => if d.id = deletedId then none else some d
      | none => none }

/-- JavaScript `s.includes(sub)` over character lists. -/
def jsIncludes (s sub : String) : Bool :=
  textShows s sub

/-- `/datasets/id`, the DELETE request path. -/
def deletePath (id : Nat) : String :=
  "/datasets/" ++ toString id

/-- Observable outcome of `DatasetList.handleDelete`: the DELETE requests
issued, the resulting App state (via the `onDelete` callback), and the
alerts shown. -/
structure DeleteOutcome where
  requests : List String
  state : AppState
  alerts : List String
deriving DecidableEq, Repr

/-- Embedding of `DatasetList.handleDelete` (App.jsx lines 270-289) together
with the `onDelete` callback it invokes.  `confirmAns` is the value
`window.confirm` returns; `resp` the DELETE response.  A declined dialog
returns before any request; a successful request runs `onDelete(ds.id)`;
a failure alerts a version-conflict message when the error message contains
`version`, else a generic one. -/
def listHandleDelete (outer : AppState) (ds : Dataset) (confirmAns : Bool)
    (resp : Except String Unit) : DeleteOutcome :=
  if confirmAns = false then
    { requests := [], state := outer, alerts := [] }
  else
    match resp with
    | Except.ok _ =>
        { requests := [deletePath ds.id]
          state := appHandleDelete outer ds.id
          alerts := [] }
    | Except.error e =>
        { requests := [deletePath ds.id]
          state := outer
          alerts := [if jsIncludes e "version" then
                       "Cannot delete: child versions exist. Delete them first."
                     else "Delete failed: " ++ e] }

/-- Concrete datasets and App state for witnesses. -/
def dsA : Dataset :=
  { id := 1, name := "sales.csv", version := 1, total_rows := 100, total_columns := 5 }

def dsB : Dataset :=
  { id := 2, name := "users.csv", version := 1, total_rows := 50, total_columns := 3 }

def s0 : AppState :=
  { datasets := [dsA, dsB], selected := some dsA }

/-- The spec's validation example: a FAILED range rule with 12 violations
and a 3-item sample. -/
def rEx : RuleResult :=
  { rule_id := 1, column := "age", rule_type := "range", status := "FAILED"
    message := "values out of range"
    violations := 12
    violation_details :=
      [ { row_index := 4, column_value := "181", row_data := [("age", "181")] }
      , { row_index := 9, column_value := "250", row_data := [("age", "250")] }
      , { row_index := 12, column_value := "999", row_data := [("age", "999")] } ] }

def vrEx : ValidationResult :=
  { overall_status := "FAILED", passed := 3, failed := 1, results := [rEx] }

example : api (structured422 exDetail) = Except.error "422 Unprocessable Entity" := by rfl

example : (upload "a.csv" respFail).posts = 2 := by decide

example : (upload "a.csv" (structured422 exDetail)).msg =
    some { ok := false, text := "bad header", details := some exDetail } := by decide

lemma clean_good_toggle (s : SelPair) (id : Nat)
    (hcl : cleanPair s) (hg : goodPair s) (hid : id ≠ 0) :
    cleanPair (toggle s id) ∧ goodPair (toggle s id) := by
  rcases s with ⟨v1, v2⟩
  rcases v1 with _ | a <;> rcases v2 with _ | b <;>
    simp only [toggle, disabledJs, jsTruthy, Selected, goodPair, cleanPair] at hcl hg ⊢ <;>
    split_ifs <;> simp_all <;> omega

lemma clean_goodPair_foldl : ∀ (tr : List Nat) (s : SelPair),
    (∀ i ∈ tr, i ≠ 0) → cleanPair s → goodPair s →
    cleanPair (tr.foldl toggle s) ∧ goodPair (tr.foldl toggle s)
  | [], _, _, hc, hg => ⟨hc, hg⟩
  | i :: tr, s, htr, hc, hg =>
      clean_goodPair_foldl tr (toggle s i)
        (fun j hj => htr j (List.mem_cons_of_mem i hj))
        (clean_good_toggle s i hc hg (htr i (List.mem_cons_self i tr))).1
        (clean_good_toggle s i hc hg (htr i (List.mem_cons_self i tr))).2

lemma clean_reach (tr : List Nat) (htr : ∀ i ∈ tr, i ≠ 0) :
    cleanPair (reach tr) ∧ goodPair (reach tr) :=
  clean_goodPair_foldl tr initPair htr
    (by simp [initPair, cleanPair]) (Or.inl rfl)

lemma toggle_select_new (s : SelPair) (id : Nat) (hcl : cleanPair s)
    (hc : selCount s < 2) (hn : ¬ Selected s id) :
    Selected (toggle s id) id ∧ selCount (toggle s id) = selCount s + 1 := by
  rcases s with ⟨v1, v2⟩
  rcases v1 with _ | a <;> rcases v2 with _ | b <;>
    simp_all [toggle, disabledJs, jsTruthy, Selected, selCount, cleanPair]

lemma toggle_deselect (s : SelPair) (id : Nat) (hs : Selected s id) :
    ¬ Selected (toggle s id) id := by
  rcases s with ⟨v1, v2⟩
  simp only [toggle, disabledJs, jsTruthy, Selected] at hs ⊢
  split_ifs <;> simp_all

lemma toggle_full_noop (s : SelPair) (id : Nat) (hcl : cleanPair s)
    (hc : selCount s = 2) (hn : ¬ Selected s id) :
    toggle s id = s := by
  rcases s with ⟨v1, v2⟩
  rcases v1 with _ | a <;> rcases v2 with _ | b <;>
    simp_all [toggle, disabledJs, jsTruthy, Selected, selCount, cleanPair]

lemma canCompare_iff (s : SelPair) (hcl : cleanPair s) (hg : goodPair s) :
    canCompare s = true ↔ ∃ a b : Nat, a ≠ b ∧ s.v1 = some a ∧ s.v2 = some b := by
  rcases s with ⟨v1, v2⟩
  rcases v1 with _ | a <;> rcases v2 with _ | b <;>
    simp_all [canCompare, jsTruthy, cleanPair, goodPair]

/-- Claim C2, counterexample: a non-success response whose body is a valid
structured error object still yields the generic message; `api` does not
attempt the structured decoding the claim describes. -/
theorem c2_counterexample :
    api (structured422 exDetail) = Except.error "422 Unprocessable Entity" ∧
    decodeStructured (structured422 exDetail).body = some exDetail :=
  ⟨rfl, rfl⟩

/-- Claim C2, amended: on every non-success HTTP status the gateway function
produces the error message `status statusText` unconditionally, never
inspecting the body; structured decoding is not performed by the gateway. -/
theorem c2_gateway_generic (r : HttpResponse) (h : r.ok = false) :
    api r = Except.error (genericMessage r) := by
  simp [api, h]

theorem c2_gateway_generic_witness :
    api respFail = Except.error (genericMessage respFail) :=
  c2_gateway_generic respFail rfl

/-- Claim C3: an upload whose server response is HTTP 422 with a structured
`detail` object yields an error message whose `details` preserve the whole
object, so each of the four fields (error, reason, found_issues, how_to_fix)
is individually assertable, not concatenated into one string. -/
theorem c3_structured_upload (file : String) (d : ErrorDetail)
    (h : endsWithCsv file = true) :
    (upload file (structured422 d)).msg =
      some { ok := false, text := jsStringOr d.error "Upload failed", details := some d } ∧
    surfacedDetails (upload file (structured422 d)) = some d ∧
    (surfacedDetails (upload file (structured422 d))).map ErrorDetail.error = some d.error ∧
    (surfacedDetails (upload file (structured422 d))).map ErrorDetail.reason = some d.reason ∧
    (surfacedDetails (upload file (structured422 d))).map ErrorDetail.found_issues =
      some d.found_issues ∧
    (surfacedDetails (upload file (structured422 d))).map ErrorDetail.how_to_fix =
      some d.how_to_fix := by
  simp [upload, api, structured422, h, surfacedDetails, UploadMsg.details]

theorem c3_structured_upload_witness :
    (upload "data.csv" (structured422 exDetail)).msg =
      some { ok := false, text := jsStringOr exDetail.error "Upload failed"
             details := some exDetail } ∧
    surfacedDetails (upload "data.csv" (structured422 exDetail)) = some exDetail ∧
    (surfacedDetails (upload "data.csv" (structured422 exDetail))).map ErrorDetail.error =
      some exDetail.error ∧
    (surfacedDetails (upload "data.csv" (structured422 exDetail))).map ErrorDetail.reason =
      some exDetail.reason ∧
    (surfacedDetails (upload "data.csv" (structured422 exDetail))).map ErrorDetail.found_issues =
      some exDetail.found_issues ∧
    (surfacedDetails (upload "data.csv" (structured422 exDetail))).map ErrorDetail.how_to_fix =
      some exDetail.how_to_fix :=
  c3_structured_upload "data.csv" exDetail (by decide)

/-- Claim C4, counterexample: a failing upload of a `.csv`-named file issues
two POST requests to the upload endpoint, not at most one: the catch block
re-issues the request to read the error body. -/
theorem c4_counterexample :
    endsWithCsv "a.csv" = true ∧ (upload "a.csv" respFail).posts = 2 := by
  decide

/-- Claim C4, amended: a successful upload issues exactly one POST; a failed
upload automatically issues exactly one additional POST (to decode the error
body), i.e. two in total, and the failure is surfaced as an error message;
beyond that second request nothing is re-issued. -/
theorem c4_amended (file : String) (resp : HttpResponse)
    (h : endsWithCsv file = true) :
    ((resp.ok && resp.body.isSome) = true → (upload file resp).posts = 1) ∧
    ((resp.ok && resp.body.isSome) = false →
      (upload file resp).posts = 2 ∧
      ∃ m : UploadMsg, (upload file resp).msg = some m ∧ m.ok = false) := by
  rcases resp with ⟨ok, status, stext, body⟩
  cases ok <;> rcases body with _ | b <;> try cases b
  all_goals simp [upload, api, h, genericMessage]

theorem c4_amended_witness :
    (upload "a.csv" respFail).posts = 2 ∧
    ∃ m : UploadMsg, (upload "a.csv" respFail).msg = some m ∧ m.ok = false :=
  (c4_amended "a.csv" respFail (by decide)).2 rfl

/-- Claim C5: a file whose name does not end in `.csv` is rejected locally
by both the root upload and the new-version upload: a local validation
message and zero network requests. -/
theorem c5_non_csv_local (file : String) (id : Nat) (resp : HttpResponse)
    (h : endsWithCsv file = false) :
    upload file resp =
      { posts := 0
        msg := some { ok := false, text := "Only CSV files are supported.", details := none }
        uploaded := none } ∧
    uploadNewVersion id file resp =
      { posts := [], alerts := ["Only CSV files allowed"], reloadedVersions := false } := by
  simp [upload, uploadNewVersion, h]

theorem c5_non_csv_local_witness :
    upload "data.txt" respFail =
      { posts := 0
        msg := some { ok := false, text := "Only CSV files are supported.", details := none }
        uploaded := none } ∧
    uploadNewVersion 3 "data.txt" respFail =
      { posts := [], alerts := ["Only CSV files allowed"], reloadedVersions := false } :=
  c5_non_csv_local "data.txt" 3 respFail (by decide)

/-- Claim C6, counterexample: the state reached by clicking id 1 then the
falsy id 0 holds exactly two distinct selected ids, yet clicking the third
id 2 newly selects it (`!selectedV2` is true for the raw value 0, and the
checkbox is not disabled since `selectedV1 && selectedV2` is falsy), and
the Compare button is hidden at that state despite two distinct
selections. -/
theorem c6_counterexample :
    reach [1, 0] = { v1 := some 1, v2 := some 0 } ∧
    selCount (reach [1, 0]) = 2 ∧
    ¬ Selected (reach [1, 0]) 2 ∧
    Selected (toggle (reach [1, 0]) 2) 2 ∧
    canCompare (reach [1, 0]) = false := by
  decide

/-- Claim C6, amended: in every selection state reachable by clicks on
nonzero ids, toggling an unselected id while fewer than two are selected
selects it; toggling a selected id deselects it; with exactly two selected
a third id cannot become selected (the click is a no-op, the checkbox
being disabled); and comparison is enabled iff exactly two distinct ids
are selected.  The nonzero restriction is forced: JavaScript truthiness
treats the id 0 like null in the slot tests. -/
theorem c6_amended (tr : List Nat) (id : Nat) (htr : ∀ i ∈ tr, i ≠ 0) :
    (selCount (reach tr) < 2 → ¬ Selected (reach tr) id →
      Selected (toggle (reach tr) id) id ∧
      selCount (toggle (reach tr) id) = selCount (reach tr) + 1) ∧
    (Selected (reach tr) id → ¬ Selected (toggle (reach tr) id) id) ∧
    (selCount (reach tr) = 2 → ¬ Selected (reach tr) id →
      toggle (reach tr) id = reach tr) ∧
    (canCompare (reach tr) = true ↔
      ∃ a b : Nat, a ≠ b ∧ (reach tr).v1 = some a ∧ (reach tr).v2 = some b) :=
  ⟨fun hc hn => toggle_select_new (reach tr) id (clean_reach tr htr).1 hc hn,
   fun hs => toggle_deselect (reach tr) id hs,
   fun hc hn => toggle_full_noop (reach tr) id (clean_reach tr htr).1 hc hn,
   canCompare_iff (reach tr) (clean_reach tr htr).1 (clean_reach tr htr).2⟩

theorem c6_amended_witness :
    (Selected (toggle (reach [5]) 9) 9 ∧
      selCount (toggle (reach [5]) 9) = selCount (reach [5]) + 1) ∧
    (canCompare (reach [5, 9]) = true ↔
      ∃ a b : Nat, a ≠ b ∧ (reach [5, 9]).v1 = some a ∧ (reach [5, 9]).v2 = some b) :=
  ⟨(c6_amended [5] 9 (by decide)).1 (by decide) (by decide),
   (c6_amended [5, 9] 7 (by decide)).2.2.2⟩

/-- Claim C1 (code bug), evaluation at the failing input: select dataset 1,
select dataset 2, then dataset 1's profile response arrives late.  The
response is applied, not discarded: the panel bound to dataset 2 ends in
ready state holding dataset 1's profile while dataset 2's fetch is still
pending. -/
theorem c1_stale_profile_applied :
    panelRun [PanelEvent.selectDataset 1, PanelEvent.selectDataset 2,
              PanelEvent.profileResponse 1 { quality_score := 77 }] =
      { selectedId := some 2
        data := some (1, { quality_score := 77 })
        pending := [2] } := by
  decide

/-- Claim C7, counterexample: for a structured 422 response the new-version
upload surfaces only the single concatenated alert string built from the
generic message; the structured fields (reason, how_to_fix) appear nowhere
in its output, unlike the root upload's contract. -/
theorem c7_counterexample :
    (uploadNewVersion 7 "b.csv" (structured422 exDetail)).alerts =
      ["Upload failed: 422 Unprocessable Entity"] ∧
    surfacesText (uploadNewVersion 7 "b.csv" (structured422 exDetail)).alerts
      "missing id column" = false ∧
    surfacesText (uploadNewVersion 7 "b.csv" (structured422 exDetail)).alerts
      "add an id column" = false := by
  decide

/-- Claim C7, amended: the new-version upload targets
`/datasets/id/new-version` and on success refreshes that dataset's version
list (it never selects a new root entity), but it does not follow the root
upload's structured-error decoding: every failure is surfaced as the single
alert string `Upload failed: message`. -/
theorem c7_amended (id : Nat) (file : String) (resp : HttpResponse)
    (h : endsWithCsv file = true) :
    (uploadNewVersion id file resp).posts = [newVersionPath id] ∧
    ((resp.ok && resp.body.isSome) = true →
      (uploadNewVersion id file resp).reloadedVersions = true ∧
      (uploadNewVersion id file resp).alerts = ["✓ New version uploaded!"]) ∧
    (∀ e : String, api resp = Except.error e →
      (uploadNewVersion id file resp).alerts = ["Upload failed: " ++ e] ∧
      (uploadNewVersion id file resp).reloadedVersions = false) := by
  rcases resp with ⟨ok, status, stext, body⟩
  cases ok <;> rcases body with _ | b
  all_goals
    simp only [uploadNewVersion, api, h, Bool.false_and, Bool.true_and]
  all_goals
    refine ⟨by simp, by simp, ?_⟩
  all_goals
    intro e he
    simp_all

theorem c7_amended_witness :
    (uploadNewVersion 7 "b.csv" (structured422 exDetail)).posts = [newVersionPath 7] ∧
    (uploadNewVersion 7 "b.csv" (structured422 exDetail)).alerts =
      ["Upload failed: " ++ "422 Unprocessable Entity"] :=
  ⟨(c7_amended 7 "b.csv" (structured422 exDetail) (by decide)).1,
   ((c7_amended 7 "b.csv" (structured422 exDetail) (by decide)).2.2
      "422 Unprocessable Entity" rfl).1⟩

/-- Claim C8: a successful remove of a dataset id removes that dataset from
the list, keeps every other dataset, clears the selection when the removed
dataset was selected, and leaves the selection when it was not. -/
theorem c8_remove (s : AppState) (id : Nat) :
    (∀ d : Dataset, d ∈ (appHandleDelete s id).datasets → d.id ≠ id) ∧
    (∀ d : Dataset, d ∈ s.datasets → d.id ≠ id → d ∈ (appHandleDelete s id).datasets) ∧
    (∀ d0 : Dataset, s.selected = some d0 → d0.id = id →
      (appHandleDelete s id).selected = none) ∧
    (∀ d0 : Dataset, s.selected = some d0 → d0.id ≠ id →
      (appHandleDelete s id).selected = some d0) := by
  refine ⟨?_, ?_, ?_, ?_⟩
  · intro d hd
    simp only [appHandleDelete, List.mem_filter, bne_iff_ne, ne_eq] at hd
    exact hd.2
  · intro d hd hne
    simp only [appHandleDelete, List.mem_filter, bne_iff_ne, ne_eq]
    exact ⟨hd, hne⟩
  · intro d0 hsel hid
    simp [appHandleDelete, hsel, hid]
  · intro d0 hsel hne
    simp [appHandleDelete, hsel, hne]

theorem c8_remove_witness :
    (∀ d : Dataset, d ∈ (appHandleDelete s0 1).datasets → d.id ≠ 1) ∧
    (appHandleDelete s0 1).selected = none :=
  ⟨(c8_remove s0 1).1, (c8_remove s0 1).2.2.1 dsA rfl rfl⟩

/-- Claim C9: the rendered validation summary is `passed passed, failed
failed`; for a rule result with a non-empty sample the violations block
renders exactly `violation_details.length` entries under a heading showing
the true total and the sample size as distinct numbers. -/
theorem c9_validation_render (vr : ValidationResult) (r : RuleResult)
    (h : r.violation_details ≠ []) :
    summaryCounts vr = toString vr.passed ++ " passed, " ++ toString vr.failed ++ " failed" ∧
    ∃ entries : List String,
      renderViolationBlock r =
        some ("Violations (" ++ toString r.violations ++ " total, showing first "
                ++ toString r.violation_details.length ++ "):", entries) ∧
      entries.length = r.violation_details.length := by
  refine ⟨rfl, r.violation_details.map renderViolationEntry, ?_, by simp⟩
  simp [renderViolationBlock, violationHeading, List.length_pos, h]

theorem c9_validation_render_witness :
    (summaryCounts vrEx =
        toString vrEx.passed ++ " passed, " ++ toString vrEx.failed ++ " failed" ∧
      ∃ entries : List String,
        renderViolationBlock rEx =
          some ("Violations (" ++ toString rEx.violations ++ " total, showing first "
                  ++ toString rEx.violation_details.length ++ "):", entries) ∧
        entries.length = rEx.violation_details.length) ∧
    summaryCounts vrEx = "3 passed, 1 failed" ∧
    violationHeading rEx = "Violations (12 total, showing first 3):" :=
  ⟨c9_validation_render vrEx rEx (by decide), by decide, by decide⟩

/-- Claim C10: the delete handler issues its DELETE request only after the
confirmation dialog returns true; on a declined dialog no request is issued
and the dataset list and selection are untouched. -/
theorem c10_confirm_gate (outer : AppState) (ds : Dataset) (resp : Except String Unit) :
    (listHandleDelete outer ds false resp).requests = [] ∧
    (listHandleDelete outer ds false resp).state = outer ∧
    (listHandleDelete outer ds false resp).alerts = [] ∧
    (listHandleDelete outer ds true resp).requests = [deletePath ds.id] := by
  refine ⟨rfl, rfl, rfl, ?_⟩
  cases resp <;> rfl
